import Mathlib

/-!
Shallow embedding of the logplexc batching log-shipping client
(`logplexc.go`): the statistics aggregator, the token-based admission
control, the dispatcher (`maybeWork`), the delivery worker
(`syncWorker`), construction (`NewClient`), buffering (`BufferMessage`)
and shutdown (`Close`).

Modelling conventions:
* Go `uint64` counters are `Nat` reduced modulo `2 ^ 64` at each update
  (`u64` below), matching Go's wrapping arithmetic.
* The `int32` concurrency gauge is an `Int`; its increments and
  decrements are balanced per `maybeWork` frame, so its value equals the
  number of live frames, which is physically far below `2 ^ 31`; `int32`
  wraparound is therefore not modelled.
* The collaborator (`MiniClient`: framing, buffering volume, HTTP post)
  is not part of this file's source; its outputs (`Bundle` record
  counts, buffered volume, post results) are opaque inputs to the core,
  exactly as the spec's collaborator contract treats them.
* Concurrent execution is modelled as a labelled small-step transition
  system `Step` on `SysState`; each constructor is mapped to the source
  lines it abstracts.  Guards are the enabling conditions of the
  corresponding source statement; the relation admits every interleaving
  the Go scheduler can produce (and is otherwise an over-approximation,
  which only strengthens the proved invariants).
-/

namespace Logplexc

/-- Modulus of Go `uint64` arithmetic. -/
def u64 : Nat := 2 ^ 64

/-- `u64` as a numeral, for `omega`. -/
theorem u64_eq : u64 = 18446744073709551616 := by norm_num [u64]

/-- `TimeTriggerBehavior` (logplexc.go:48-59).  The Go type is a `byte`
with three named values; only the three named values are constructible
through the public surface modelled here. -/
inductive TimeTriggerBehavior
| periodic
| immediate
| never
deriving DecidableEq, Repr

/-- `Stats` (logplexc.go:14-46): the concurrency gauge plus message- and
request-level counters.  All counters are Go `uint64` (here: `Nat`
values kept below `u64`); the gauge is Go `int32` (here: `Int`). -/
structure Stats where
  concurrency : Int := 0
  total : Nat := 0
  dropped : Nat := 0
  cancelled : Nat := 0
  rejected : Nat := 0
  successful : Nat := 0
  totalRequests : Nat := 0
  droppedRequests : Nat := 0
  cancelRequests : Nat := 0
  rejectRequests : Nat := 0
  successRequests : Nat := 0
deriving DecidableEq, Repr

/-- `MiniStats` of the collaborator: the framed-record count of a
swapped-out bundle (a Go `uint64`, opaque input to the core). -/
structure MiniStats where
  numberFramed : Nat
deriving DecidableEq, Repr

/-- A swapped-out `Bundle` as the core sees it: the dispatcher and the
stats paths consult only `NumberFramed`. -/
structure Bundle where
  miniStats : MiniStats
deriving DecidableEq, Repr

/-- `statReqTotalUnsync` (logplexc.go:278-281): adds a bundle's record
count to `Total` and one to `TotalRequests`.  Called only with
`statLock` held, from the four category updates below. -/
def statReqTotalUnsync (st : Stats) (numberFramed : Nat) : Stats :=
  { st with
    total := (st.total + numberFramed) % u64
    totalRequests := (st.totalRequests + 1) % u64 }

/-- `statReqSuccess` (logplexc.go:283-290): under `statLock`, the shared
totals plus the successful category. -/
def statReqSuccess (st : Stats) (numberFramed : Nat) : Stats :=
  let st := statReqTotalUnsync st numberFramed
  { st with
    successful := (st.successful + numberFramed) % u64
    successRequests := (st.successRequests + 1) % u64 }

/-- `statReqErr` (logplexc.go:292-299): under `statLock`, the shared
totals plus the cancelled category. -/
def statReqErr (st : Stats) (numberFramed : Nat) : Stats :=
  let st := statReqTotalUnsync st numberFramed
  { st with
    cancelled := (st.cancelled + numberFramed) % u64
    cancelRequests := (st.cancelRequests + 1) % u64 }

/-- `statReqRej` (logplexc.go:301-308): under `statLock`, the shared
totals plus the rejected category. -/
def statReqRej (st : Stats) (numberFramed : Nat) : Stats :=
  let st := statReqTotalUnsync st numberFramed
  { st with
    rejected := (st.rejected + numberFramed) % u64
    rejectRequests := (st.rejectRequests + 1) % u64 }

/-- `statReqDrop` (logplexc.go:310-317): under `statLock`, the shared
totals plus the dropped category. -/
def statReqDrop (st : Stats) (numberFramed : Nat) : Stats :=
  let st := statReqTotalUnsync st numberFramed
  { st with
    dropped := (st.dropped + numberFramed) % u64
    droppedRequests := (st.droppedRequests + 1) % u64 }

/-- Result of `m.c.Post(b)` (logplexc.go:262) as the core observes it:
either a transport-level error (no response), or a response carrying a
status code. -/
inductive PostResult
| transportError
| response (statusCode : Nat)
deriving DecidableEq, Repr

/-- The three delivery outcomes of `syncWorker`. -/
inductive Outcome
| cancelled
| rejected
| successful
deriving DecidableEq, Repr

/-- The classification performed by `syncWorker` (logplexc.go:262-275):
a post error is cancelled; a response whose status code differs from
`http.StatusNoContent` (204) is rejected; a 204 response is
successful. -/
def syncWorkerClassify : PostResult → Outcome
| .transportError => .cancelled
| .response statusCode =>
    if statusCode ≠ 204 then .rejected else .successful

/-- The statistics effect of `syncWorker` (logplexc.go:262-275): exactly
one of `statReqErr`, `statReqRej`, `statReqSuccess` runs, chosen by the
post result. -/
def syncWorkerStats (st : Stats) (numberFramed : Nat) (r : PostResult) : Stats :=
  match r with
  | .transportError => statReqErr st numberFramed
  | .response statusCode =>
      if statusCode ≠ 204 then statReqRej st numberFramed
      else statReqSuccess st numberFramed

/-- Net result of one `maybeWork` call (logplexc.go:218-244).  The gauge
increment at entry and the deferred decrement at exit cancel across the
call and are modelled in the transition system (`Step.enterAttempt` /
`Step.exitAttempt`); `tokenReady` says whether a sender was ready on the
unbuffered `bucket` channel, so that the non-blocking
`select`-with-`default` receive succeeds. -/
structure MaybeWorkResult where
  stats : Stats
  workerSpawned : Bool
  tokenTaken : Bool
  gosched : Bool
deriving DecidableEq, Repr

/-- `maybeWork` (logplexc.go:218-244): swap the bundle (its count is the
input `b`); return if it is empty; otherwise probe the bucket without
blocking: on success spawn a `syncWorker` with the token, on failure
record drop statistics and call `runtime.Gosched()`. -/
def maybeWork (st : Stats) (b : Bundle) (tokenReady : Bool) : MaybeWorkResult :=
  if b.miniStats.numberFramed ≤ 0 then
    { stats := st, workerSpawned := false, tokenTaken := false, gosched := false }
  else if tokenReady then
    { stats := st, workerSpawned := true, tokenTaken := true, gosched := false }
  else
    { stats := statReqDrop st b.miniStats.numberFramed
      workerSpawned := false, tokenTaken := false, gosched := true }

/-- Observable effects of one `BufferMessage` call (logplexc.go:190-208).
`errorReturned` is the returned error; `recordBuffered` says whether
`m.c.BufferMessage` ran (the finalize check precedes it, so a closed
client buffers nothing); `flushAttempted` says whether `maybeWork` was
called. -/
structure BufferOutcome where
  errorReturned : Option String
  recordBuffered : Bool
  flushAttempted : Bool
deriving DecidableEq, Repr

/-- `BufferMessage` (logplexc.go:190-208): fail if `finalize` is closed;
otherwise buffer via the collaborator (which reports `bufferedAfter`
bytes buffered, a Go `int`) and call `maybeWork` when the volume reaches
`RequestSizeTrigger` or the trigger behavior is immediate. -/
def bufferMessage (finalized : Bool) (bufferedAfter requestSizeTrigger : Int)
    (tt : TimeTriggerBehavior) : BufferOutcome :=
  if finalized then
    { errorReturned := some "Failed trying to buffer a message: client already Closed"
      recordBuffered := false, flushAttempted := false }
  else if bufferedAfter ≥ requestSizeTrigger ∨ tt = .immediate then
    { errorReturned := none, recordBuffered := true, flushAttempted := true }
  else
    { errorReturned := none, recordBuffered := true, flushAttempted := false }

/-- `NewClient`'s time-trigger determination (logplexc.go:116-138): only
the `TimeTriggerPeriodic` arm of the `switch` validates `cfg.Period`
(negative is an error, zero rewrites to immediate, positive stays
periodic — the `panic("bug")` arm is unreachable); every other behavior
is copied through with the period ignored. -/
def determineTimeTrigger (cfgTimeTrigger : TimeTriggerBehavior) (cfgPeriod : Int) :
    Except String TimeTriggerBehavior :=
  match cfgTimeTrigger with
  | .periodic =>
      if cfgPeriod < 0 then
        .error "logplexc.Client: negative target latency not allowed"
      else if cfgPeriod = 0 then
        .ok .immediate
      else
        .ok .periodic
  | tt => .ok tt

/-- The construction-time facts about a successfully built `Client`
(logplexc.go:97-181): the normalized trigger behavior, whether a
`time.Ticker` was allocated (`m.ticker` stays nil otherwise), how many
background goroutines were registered on `finalizeDone` and started (the
token-supply goroutine always, the ticker goroutine only when periodic),
and the unchecked `cfg.Concurrency` (a Go `int`; never validated). -/
structure ClientInit where
  timeTrigger : TimeTriggerBehavior
  ticker : Option Unit
  tasksStarted : Nat
  concurrencyCfg : Int
deriving DecidableEq, Repr

/-- `NewClient` (logplexc.go:97-181) restricted to the core's own
checks; collaborator (`NewMiniClient`) construction is out of scope.  On
the error path `NewClient` returns before either `finalizeDone.Add` /
`go` statement, so no background task is started. -/
def newClient (cfgTimeTrigger : TimeTriggerBehavior) (cfgPeriod : Int)
    (cfgConcurrency : Int) : Except String ClientInit :=
  match determineTimeTrigger cfgTimeTrigger cfgPeriod with
  | .error e => .error e
  | .ok tt =>
      .ok { timeTrigger := tt
            ticker := if tt = .periodic then some () else none
            tasksStarted := 1 + (if tt = .periodic then 1 else 0)
            concurrencyCfg := cfgConcurrency }

/-- Background tasks started by a construction attempt: none on the
error path (the error return at logplexc.go:124 precedes both `go`
statements). -/
def tasksStartedOf : Except String ClientInit → Nat
| .error _ => 0
| .ok ci => ci.tasksStarted

/-- Go `(*time.Ticker).Stop` evaluates `&t.r` on its receiver; on a nil
receiver this selector panics with a nil-pointer dereference.  `none`
models the nil `m.ticker` of a client whose trigger behavior is not
periodic. -/
def tickerStop (ticker : Option Unit) : Except String Unit :=
  match ticker with
  | none => .error "runtime error: invalid memory address or nil pointer dereference"
  | some _ => .ok ()

/-- What `Close` does after the ticker stop succeeds: `close(m.finalize)`
broadcasts the shutdown signal, `m.finalizeDone.Wait()` blocks until
every registered background task has finished. -/
structure CloseEffects where
  tickerStopped : Bool
  finalizeClosed : Bool
  waitedForTasks : Bool
deriving DecidableEq, Repr

/-- `Close` (logplexc.go:183-188): stop `m.ticker` unconditionally —
this panics when no ticker was created — then broadcast `finalize` and
wait on `finalizeDone`. -/
def closeClient (ticker : Option Unit) : Except String CloseEffects :=
  match tickerStop ticker with
  | .error e => .error e
  | .ok _ =>
      .ok { tickerStopped := true, finalizeClosed := true, waitedForTasks := true }

/-- One iteration of the token-supply goroutine's `select`
(logplexc.go:149-155): either a receiver took the offered token on the
unbuffered `bucket` channel, or the closed `finalize` channel was
chosen. -/
inductive SupplySel
| send
| fin
deriving DecidableEq, Repr

/-- The number of tokens inserted by the token-supply goroutine
(logplexc.go:145-156) for capacity `cap`, given the sequence of select
outcomes the scheduler produced; a schedule shorter than the loop leaves
the goroutine blocked in `select` after inserting the prefix's
tokens. -/
def supplyLoop : Nat → List SupplySel → Nat
| 0, _ => 0
| _ + 1, [] => 0
| n + 1, .send :: rest => 1 + supplyLoop n rest
| _ + 1, .fin :: _ => 0

/-- Global state of the concurrent system.  `supplied` counts tokens the
supply goroutine has handed over so far; `holders` counts `syncWorker`
goroutines currently holding a token (the `bucket` channel is unbuffered,
so a token is never parked in a pool: it passes from a sender directly
to the dispatcher's receive); `attempts` counts `maybeWork` frames
between their two atomic gauge updates; `spawnedWorkers` counts
`syncWorker` goroutines ever started; `finalized` says whether
`close(m.finalize)` has happened. -/
structure SysState where
  stats : Stats
  supplied : Nat
  holders : Nat
  attempts : Nat
  spawnedWorkers : Nat
  finalized : Bool
deriving DecidableEq, Repr

/-- The state right after `NewClient` returns: zero statistics, no token
handed over yet, no worker, no active attempt. -/
def initState : SysState :=
  { stats := {}, supplied := 0, holders := 0, attempts := 0
    spawnedWorkers := 0, finalized := false }

/-- Small-step transition relation of the client with configured
capacity `cap` (`cfg.Concurrency` clamped at zero, since the supply loop
runs zero iterations for a non-positive count).  Each constructor
abstracts one atomic source event; interleavings are unconstrained
beyond each event's own enabling condition. -/
inductive Step (cap : Nat) : SysState → SysState → Prop
  /-- logplexc.go:219: `atomic.AddInt32(&m.Stats.Concurrency, 1)` at
  `maybeWork` entry.  `maybeWork` runs on any caller goroutine
  (`BufferMessage`) and on the ticker goroutine, so any number of
  frames can be live at once. -/
| enterAttempt (s : SysState) :
    Step cap s { s with
      attempts := s.attempts + 1
      stats := { s.stats with concurrency := s.stats.concurrency + 1 } }
  /-- logplexc.go:220: the deferred `atomic.AddInt32(&m.Stats.Concurrency, -1)`
  when a live `maybeWork` frame returns. -/
| exitAttempt (s : SysState) (h : 0 < s.attempts) :
    Step cap s { s with
      attempts := s.attempts - 1
      stats := { s.stats with concurrency := s.stats.concurrency - 1 } }
  /-- logplexc.go:151 with logplexc.go:232-234: the supply goroutine's
  send on the unbuffered `bucket` rendezvouses with a dispatcher's
  receive, which immediately starts a `syncWorker` holding the token.
  Enabled only while the supply loop has iterations left; the `select`
  may still choose this branch after `finalize` closes, so there is no
  `finalized` guard. -/
| acquireSupply (s : SysState) (h : s.supplied < cap) :
    Step cap s { s with
      supplied := s.supplied + 1
      holders := s.holders + 1
      spawnedWorkers := s.spawnedWorkers + 1 }
  /-- logplexc.go:253 with logplexc.go:232-234: a finishing
  `syncWorker`'s deferred token return rendezvouses with a dispatcher's
  receive, which starts a new `syncWorker`; one holder is released and
  one created. -/
| acquireHandoff (s : SysState) (h : 0 < s.holders) :
    Step cap s { s with spawnedWorkers := s.spawnedWorkers + 1 }
  /-- logplexc.go:255: a finishing `syncWorker` abandons its token
  return because `finalize` is closed. -/
| abandonReturn (s : SysState) (h : 0 < s.holders) (hfin : s.finalized = true) :
    Step cap s { s with holders := s.holders - 1 }
  /-- logplexc.go:186: `close(m.finalize)` inside `Close` (reachable
  only when the ticker stop did not panic). -/
| finalize (s : SysState) :
    Step cap s { s with finalized := true }
  /-- logplexc.go:237: `m.statReqDrop(&b.MiniStats)` on the dispatcher's
  saturated path, one atomic critical section under `statLock`. -/
| statDrop (s : SysState) (n : Nat) :
    Step cap s { s with stats := statReqDrop s.stats n }
  /-- logplexc.go:264: `m.statReqErr(&b.MiniStats)` in a `syncWorker`
  whose post failed, one atomic critical section under `statLock`. -/
| statCancel (s : SysState) (n : Nat) :
    Step cap s { s with stats := statReqErr s.stats n }
  /-- logplexc.go:272: `m.statReqRej(&b.MiniStats)` in a `syncWorker`
  that got a non-204 response, one atomic critical section under
  `statLock`. -/
| statReject (s : SysState) (n : Nat) :
    Step cap s { s with stats := statReqRej s.stats n }
  /-- logplexc.go:274: `m.statReqSuccess(&b.MiniStats)` in a
  `syncWorker` that got a 204 response, one atomic critical section
  under `statLock`. -/
| statSuccess (s : SysState) (n : Nat) :
    Step cap s { s with stats := statReqSuccess s.stats n }

/-- States reachable from the freshly constructed client. -/
def Reachable (cap : Nat) (s : SysState) : Prop :=
  Relation.ReflTransGen (Step cap) initState s

/-- The message-level accounting identity, in the client's `uint64`
arithmetic: dropped + cancelled + rejected + successful = total. -/
def MsgIdentity (st : Stats) : Prop :=
  (st.dropped + st.cancelled + st.rejected + st.successful) % u64 = st.total

/-- The request-level accounting identity, in `uint64` arithmetic. -/
def ReqIdentity (st : Stats) : Prop :=
  (st.droppedRequests + st.cancelRequests + st.rejectRequests + st.successRequests) % u64
    = st.totalRequests

/-- The inductive invariant: token holders never exceed the tokens
supplied, which never exceed the capacity; the gauge equals the number
of live `maybeWork` frames; both accounting identities hold. -/
def Inv (cap : Nat) (s : SysState) : Prop :=
  s.holders ≤ s.supplied ∧ s.supplied ≤ cap ∧
  s.stats.concurrency = (s.attempts : Int) ∧
  MsgIdentity s.stats ∧ ReqIdentity s.stats

/-- Each of the four category updates preserves both accounting
identities: it adds the same quantities to one category and to the
shared totals within one critical section. -/
theorem statReqDrop_identities (st : Stats) (n : Nat)
    (hm : MsgIdentity st) (hr : ReqIdentity st) :
    MsgIdentity (statReqDrop st n) ∧ ReqIdentity (statReqDrop st n) := by
  unfold MsgIdentity ReqIdentity statReqDrop statReqTotalUnsync at *
  simp only [u64_eq] at *
  constructor <;> omega

/-- `statReqErr` preserves both accounting identities. -/
theorem statReqErr_identities (st : Stats) (n : Nat)
    (hm : MsgIdentity st) (hr : ReqIdentity st) :
    MsgIdentity (statReqErr st n) ∧ ReqIdentity (statReqErr st n) := by
  unfold MsgIdentity ReqIdentity statReqErr statReqTotalUnsync at *
  simp only [u64_eq] at *
  constructor <;> omega

/-- `statReqRej` preserves both accounting identities. -/
theorem statReqRej_identities (st : Stats) (n : Nat)
    (hm : MsgIdentity st) (hr : ReqIdentity st) :
    MsgIdentity (statReqRej st n) ∧ ReqIdentity (statReqRej st n) := by
  unfold MsgIdentity ReqIdentity statReqRej statReqTotalUnsync at *
  simp only [u64_eq] at *
  constructor <;> omega

/-- `statReqSuccess` preserves both accounting identities. -/
theorem statReqSuccess_identities (st : Stats) (n : Nat)
    (hm : MsgIdentity st) (hr : ReqIdentity st) :
    MsgIdentity (statReqSuccess st n) ∧ ReqIdentity (statReqSuccess st n) := by
  unfold MsgIdentity ReqIdentity statReqSuccess statReqTotalUnsync at *
  simp only [u64_eq] at *
  constructor <;> omega

/-- The category updates leave the concurrency gauge untouched. -/
theorem statReq_concurrency (st : Stats) (n : Nat) :
    (statReqDrop st n).concurrency = st.concurrency
    ∧ (statReqErr st n).concurrency = st.concurrency
    ∧ (statReqRej st n).concurrency = st.concurrency
    ∧ (statReqSuccess st n).concurrency = st.concurrency := by
  refine ⟨rfl, rfl, rfl, rfl⟩

/-- The invariant holds in the initial state. -/
theorem inv_init (cap : Nat) : Inv cap initState := by
  refine ⟨Nat.le_refl 0, Nat.zero_le cap, rfl, rfl, rfl⟩

/-- Every transition preserves the invariant. -/
theorem inv_step {cap : Nat} {s t : SysState} (hs : Inv cap s) (h : Step cap s t) :
    Inv cap t := by
  obtain ⟨hhold, hsup, hgauge, hm, hr⟩ := hs
  cases h with
  | enterAttempt =>
      refine ⟨hhold, hsup, ?_, hm, hr⟩
      simp only [hgauge]
      push_cast
      ring
  | exitAttempt hpos =>
      refine ⟨hhold, hsup, ?_, hm, hr⟩
      simp only [hgauge]
      omega
  | acquireSupply hlt =>
      exact ⟨Nat.succ_le_succ hhold, hlt, hgauge, hm, hr⟩
  | acquireHandoff hpos =>
      exact ⟨hhold, hsup, hgauge, hm, hr⟩
  | abandonReturn hpos hfin =>
      exact ⟨Nat.le_trans (Nat.sub_le _ _) hhold, hsup, hgauge, hm, hr⟩
  | finalize =>
      exact ⟨hhold, hsup, hgauge, hm, hr⟩
  | statDrop n =>
      obtain ⟨hm2, hr2⟩ := statReqDrop_identities s.stats n hm hr
      exact ⟨hhold, hsup, hgauge, hm2, hr2⟩
  | statCancel n =>
      obtain ⟨hm2, hr2⟩ := statReqErr_identities s.stats n hm hr
      exact ⟨hhold, hsup, hgauge, hm2, hr2⟩
  | statReject n =>
      obtain ⟨hm2, hr2⟩ := statReqRej_identities s.stats n hm hr
      exact ⟨hhold, hsup, hgauge, hm2, hr2⟩
  | statSuccess n =>
      obtain ⟨hm2, hr2⟩ := statReqSuccess_identities s.stats n hm hr
      exact ⟨hhold, hsup, hgauge, hm2, hr2⟩

/-- The invariant holds in every reachable state. -/
theorem inv_reachable {cap : Nat} {s : SysState} (h : Reachable cap s) :
    Inv cap s := by
  induction h with
  | refl => exact inv_init cap
  | tail _ hstep ih => exact inv_step ih hstep

/-- The supply goroutine inserts at most `cap` tokens, whatever the
scheduler does. -/
theorem supplyLoop_le (cap : Nat) (sched : List SupplySel) :
    supplyLoop cap sched ≤ cap := by
  induction cap generalizing sched with
  | zero => simp [supplyLoop]
  | succ n ih =>
      cases sched with
      | nil => simp [supplyLoop]
      | cons hd tl =>
          cases hd with
          | send =>
              have := ih tl
              simp only [supplyLoop]
              omega
          | fin => simp [supplyLoop]

/-- If the scheduler offers a receiver at every iteration and shutdown
never intervenes, the supply goroutine inserts exactly `cap` tokens. -/
theorem supplyLoop_full (cap : Nat) (sched : List SupplySel)
    (hlen : sched.length = cap) (hnofin : SupplySel.fin ∉ sched) :
    supplyLoop cap sched = cap := by
  induction cap generalizing sched with
  | zero => simp [supplyLoop]
  | succ n ih =>
      cases sched with
      | nil => simp at hlen
      | cons hd tl =>
          cases hd with
          | send =>
              simp only [List.length_cons, Nat.succ.injEq] at hlen
              simp only [List.mem_cons, not_or] at hnofin
              simp only [supplyLoop, ih tl hlen hnofin.2]
              omega
          | fin =>
              exact absurd (List.mem_cons_self _ _) hnofin

/-- With a configured capacity of zero the supply goroutine's loop runs
zero iterations, so no token is ever handed over, no `syncWorker` is
ever started, and no tokens are ever held. -/
theorem reachable_zero_cap {s : SysState} (h : Reachable 0 s) :
    s.supplied = 0 ∧ s.holders = 0 ∧ s.spawnedWorkers = 0 := by
  induction h with
  | refl => exact ⟨rfl, rfl, rfl⟩
  | tail _ hstep ih =>
      obtain ⟨h1, h2, h3⟩ := ih
      cases hstep with
      | enterAttempt => exact ⟨h1, h2, h3⟩
      | exitAttempt hpos => exact ⟨h1, h2, h3⟩
      | acquireSupply hlt => omega
      | acquireHandoff hpos => omega
      | abandonReturn hpos hfin => omega
      | finalize => exact ⟨h1, h2, h3⟩
      | statDrop n => exact ⟨h1, h2, h3⟩
      | statCancel n => exact ⟨h1, h2, h3⟩
      | statReject n => exact ⟨h1, h2, h3⟩
      | statSuccess n => exact ⟨h1, h2, h3⟩

/-- C1: In every reachable state the admission tokens in circulation
(held by delivery workers) never exceed the configured capacity, nor do
the tokens the supply goroutine has inserted; the supply goroutine
inserts at most `cap` tokens under every schedule, and exactly `cap`
when shutdown does not intervene.  Tokens are added only by the initial
insertion (`Step.acquireSupply`) and a delivery worker's return path
(`Step.acquireHandoff`), and only the dispatcher's non-blocking receive
consumes one, as the transition relation's constructors record. -/
theorem tokenCirculationBounded (cap : Nat) (s : SysState) (h : Reachable cap s) :
    s.holders ≤ cap
    ∧ s.supplied ≤ cap
    ∧ (∀ sched : List SupplySel, supplyLoop cap sched ≤ cap)
    ∧ (∀ sched : List SupplySel, sched.length = cap → SupplySel.fin ∉ sched →
        supplyLoop cap sched = cap) := by
  obtain ⟨hhold, hsup, _, _, _⟩ := inv_reachable h
  exact ⟨Nat.le_trans hhold hsup, hsup, supplyLoop_le cap, supplyLoop_full cap⟩

/-- Witness for C1 at capacity 1, at the state reached by one
supply-side token handoff. -/
theorem tokenCirculationBounded_witness :
    ({ initState with supplied := 1, holders := 1, spawnedWorkers := 1 } : SysState).holders ≤ 1
    ∧ supplyLoop 1 [SupplySel.send] = 1 := by
  have hre : Reachable 1 { initState with supplied := 1, holders := 1, spawnedWorkers := 1 } :=
    Relation.ReflTransGen.single (Step.acquireSupply initState (by decide))
  have h := tokenCirculationBounded 1 _ hre
  exact ⟨h.1, h.2.2.2 [SupplySel.send] rfl (by decide)⟩

/-- C2: In every reachable state both accounting identities hold (in the
client's `uint64` arithmetic), and each of the four stats-update
operations rewrites exactly one terminal category (messages by the
record count, requests by one) together with both running totals, in a
single critical section, leaving every other counter unchanged. -/
theorem statsAccountingIdentity (cap : Nat) (s : SysState) (h : Reachable cap s)
    (st : Stats) (n : Nat) :
    (MsgIdentity s.stats ∧ ReqIdentity s.stats)
    ∧ statReqDrop st n = { st with
        total := (st.total + n) % u64
        totalRequests := (st.totalRequests + 1) % u64
        dropped := (st.dropped + n) % u64
        droppedRequests := (st.droppedRequests + 1) % u64 }
    ∧ statReqErr st n = { st with
        total := (st.total + n) % u64
        totalRequests := (st.totalRequests + 1) % u64
        cancelled := (st.cancelled + n) % u64
        cancelRequests := (st.cancelRequests + 1) % u64 }
    ∧ statReqRej st n = { st with
        total := (st.total + n) % u64
        totalRequests := (st.totalRequests + 1) % u64
        rejected := (st.rejected + n) % u64
        rejectRequests := (st.rejectRequests + 1) % u64 }
    ∧ statReqSuccess st n = { st with
        total := (st.total + n) % u64
        totalRequests := (st.totalRequests + 1) % u64
        successful := (st.successful + n) % u64
        successRequests := (st.successRequests + 1) % u64 } := by
  obtain ⟨_, _, _, hm, hr⟩ := inv_reachable h
  exact ⟨⟨hm, hr⟩, rfl, rfl, rfl, rfl⟩

/-- Witness for C2 at the initial state and a concrete update. -/
theorem statsAccountingIdentity_witness :
    (MsgIdentity initState.stats ∧ ReqIdentity initState.stats)
    ∧ (statReqDrop { } 5).dropped = 5 := by
  have h := statsAccountingIdentity 0 initState Relation.ReflTransGen.refl { } 5
  refine ⟨h.1, ?_⟩
  rw [h.2.1]
  decide

/-- C8 counterexample: with configured capacity 1, the state reached by
two overlapping flush attempts (for instance the ticker goroutine's
`maybeWork` and a caller's size-triggered `maybeWork`) is reachable and
its live concurrency gauge is 2, exceeding the capacity. -/
def twoAttemptsState : SysState :=
  { stats := { concurrency := 2 }, supplied := 0, holders := 0, attempts := 2
    spawnedWorkers := 0, finalized := false }

/-- C8 as stated is false: the gauge counts live flush attempts, which
the admission capacity does not bound. -/
theorem gaugeExceedsCapacity :
    Reachable 1 twoAttemptsState ∧ 1 < twoAttemptsState.stats.concurrency := by
  refine ⟨?_, by decide⟩
  have h1 := @Step.enterAttempt 1 initState
  have h2 := @Step.enterAttempt 1
    { initState with
      attempts := initState.attempts + 1
      stats := { initState.stats with concurrency := initState.stats.concurrency + 1 } }
  exact Relation.ReflTransGen.tail (Relation.ReflTransGen.single h1) h2

/-- C8 amended: in every reachable state the live concurrency gauge is
nonnegative — it equals the number of flush attempts currently in
progress (incremented at entry to `maybeWork`, decremented on exit). -/
theorem gaugeNonnegative (cap : Nat) (s : SysState) (h : Reachable cap s) :
    0 ≤ s.stats.concurrency ∧ s.stats.concurrency = (s.attempts : Int) := by
  obtain ⟨_, _, hgauge, _, _⟩ := inv_reachable h
  exact ⟨hgauge ▸ Int.natCast_nonneg s.attempts, hgauge⟩

/-- Witness for the amended C8 at the initial state. -/
theorem gaugeNonnegative_witness :
    0 ≤ initState.stats.concurrency := by
  exact (gaugeNonnegative 1 initState Relation.ReflTransGen.refl).1

/-- C3: the code contradicts the claim.  Construction with the
`immediate` or `never` behavior allocates no ticker (`m.ticker` stays
nil), yet `Close` calls `m.ticker.Stop()` unconditionally and panics
with a nil-pointer dereference instead of proceeding to the shutdown
broadcast and the wait; with a ticker present `Close` behaves as the
claim describes. -/
theorem closeNilTickerPanics :
    newClient .never 0 1
      = .ok { timeTrigger := .never, ticker := none, tasksStarted := 1, concurrencyCfg := 1 }
    ∧ newClient .immediate 0 1
      = .ok { timeTrigger := .immediate, ticker := none, tasksStarted := 1, concurrencyCfg := 1 }
    ∧ closeClient none
      = .error "runtime error: invalid memory address or nil pointer dereference"
    ∧ newClient .periodic 7 1
      = .ok { timeTrigger := .periodic, ticker := some (), tasksStarted := 2, concurrencyCfg := 1 }
    ∧ closeClient (some ())
      = .ok { tickerStopped := true, finalizeClosed := true, waitedForTasks := true } := by
  exact ⟨rfl, rfl, rfl, rfl, rfl⟩

/-- C4: the delivery worker's classification is a total function of the
(error, status-code) response shape, with exactly the three outcomes:
a transport error is cancelled, a non-204 response is rejected, a 204
response is successful; the matching stats update is the one for the
classified outcome. -/
theorem deliveryClassification (st : Stats) (n : Nat) (code : Nat) (h : code ≠ 204) :
    syncWorkerClassify .transportError = .cancelled
    ∧ syncWorkerClassify (.response code) = .rejected
    ∧ syncWorkerClassify (.response 204) = .successful
    ∧ (∀ r : PostResult, syncWorkerClassify r = .cancelled ↔ r = .transportError)
    ∧ (∀ r : PostResult, syncWorkerClassify r = .successful ↔ r = .response 204)
    ∧ syncWorkerStats st n .transportError = statReqErr st n
    ∧ syncWorkerStats st n (.response code) = statReqRej st n
    ∧ syncWorkerStats st n (.response 204) = statReqSuccess st n := by
  refine ⟨rfl, ?_, ?_, ?_, ?_, rfl, ?_, ?_⟩
  · simp [syncWorkerClassify, h]
  · simp [syncWorkerClassify]
  · intro r
    cases r with
    | transportError => simp [syncWorkerClassify]
    | response c =>
        simp only [syncWorkerClassify]
        by_cases hc : c = 204 <;> simp [hc]
  · intro r
    cases r with
    | transportError => simp [syncWorkerClassify]
    | response c =>
        simp only [syncWorkerClassify]
        by_cases hc : c = 204 <;> simp [hc]
  · simp [syncWorkerStats, h]
  · simp [syncWorkerStats]

/-- Witness for C4 at a concrete rejected status code. -/
theorem deliveryClassification_witness :
    syncWorkerClassify (.response 503) = .rejected := by
  exact (deliveryClassification { } 1 503 (by decide)).2.1

/-- C5: a flush attempt on a non-empty batch with no token available
does not admit a delivery: the non-blocking probe (the
`select`-with-`default` receive, modelled as the pure `tokenReady`
input — `maybeWork` is a total function, so the attempt never suspends)
fails, the batch is recorded as dropped together with the running totals
(record count at message level, one at request level), and the scheduler
is yielded as a hint. -/
theorem saturatedFlushDrops (st : Stats) (b : Bundle)
    (h : b.miniStats.numberFramed ≠ 0) :
    maybeWork st b false
      = { stats := statReqDrop st b.miniStats.numberFramed
          workerSpawned := false, tokenTaken := false, gosched := true }
    ∧ (statReqDrop st b.miniStats.numberFramed).dropped
        = (st.dropped + b.miniStats.numberFramed) % u64
    ∧ (statReqDrop st b.miniStats.numberFramed).droppedRequests
        = (st.droppedRequests + 1) % u64
    ∧ (statReqDrop st b.miniStats.numberFramed).total
        = (st.total + b.miniStats.numberFramed) % u64
    ∧ (statReqDrop st b.miniStats.numberFramed).totalRequests
        = (st.totalRequests + 1) % u64 := by
  refine ⟨?_, rfl, rfl, rfl, rfl⟩
  simp [maybeWork, Nat.le_zero, h]

/-- Witness for C5 at a three-record batch. -/
theorem saturatedFlushDrops_witness :
    (maybeWork { } ⟨⟨3⟩⟩ false).gosched = true ∧ (maybeWork { } ⟨⟨3⟩⟩ false).stats.dropped = 3 := by
  have h := saturatedFlushDrops { } ⟨⟨3⟩⟩ (by decide)
  rw [h.1]
  exact ⟨rfl, by decide⟩

/-- C6: buffering on a closed client returns the closed-client error at
once and buffers nothing; on a live client it returns no error, buffers
the record, and attempts a flush exactly when the reported buffered
volume reaches the size threshold or the trigger behavior is
immediate. -/
theorem bufferMessageBehavior (buf trig : Int) (tt : TimeTriggerBehavior) :
    (bufferMessage true buf trig tt).errorReturned
      = some "Failed trying to buffer a message: client already Closed"
    ∧ (bufferMessage true buf trig tt).recordBuffered = false
    ∧ (bufferMessage true buf trig tt).flushAttempted = false
    ∧ (bufferMessage false buf trig tt).errorReturned = none
    ∧ (bufferMessage false buf trig tt).recordBuffered = true
    ∧ ((bufferMessage false buf trig tt).flushAttempted = true
        ↔ (buf ≥ trig ∨ tt = .immediate)) := by
  refine ⟨rfl, rfl, rfl, ?_, ?_, ?_⟩ <;>
    · simp only [bufferMessage, if_neg Bool.false_ne_true]
      split <;> simp_all

/-- C7 counterexample: a negative period is accepted whenever the
configured behavior is not periodic — the validation sits inside the
`TimeTriggerPeriodic` arm of the `switch` only. -/
theorem negativePeriodAcceptedOutsidePeriodic :
    newClient .immediate (-1) 1
      = .ok { timeTrigger := .immediate, ticker := none, tasksStarted := 1, concurrencyCfg := 1 }
    ∧ newClient .never (-1) 1
      = .ok { timeTrigger := .never, ticker := none, tasksStarted := 1, concurrencyCfg := 1 } := by
  exact ⟨rfl, rfl⟩

/-- C7 amended: under the periodic behavior a negative period is a
construction error with no background task started, and a zero period is
normalized to immediate; under any other behavior the period is ignored
and construction succeeds. -/
theorem periodValidationUnderPeriodic (p c : Int) (h : p < 0) :
    newClient .periodic p c
      = .error "logplexc.Client: negative target latency not allowed"
    ∧ tasksStartedOf (newClient .periodic p c) = 0
    ∧ newClient .periodic 0 c
      = .ok { timeTrigger := .immediate, ticker := none, tasksStarted := 1, concurrencyCfg := c }
    ∧ (∀ tt : TimeTriggerBehavior, tt ≠ .periodic →
        newClient tt p c
          = .ok { timeTrigger := tt, ticker := none, tasksStarted := 1, concurrencyCfg := c }) := by
  have herr : newClient .periodic p c
      = .error "logplexc.Client: negative target latency not allowed" := by
    simp [newClient, determineTimeTrigger, h]
  refine ⟨herr, by rw [herr]; rfl, by simp [newClient, determineTimeTrigger], ?_⟩
  intro tt htt
  cases tt with
  | periodic => exact absurd rfl htt
  | immediate => simp [newClient, determineTimeTrigger]
  | never => simp [newClient, determineTimeTrigger]

/-- Witness for the amended C7 at period -1. -/
theorem periodValidationUnderPeriodic_witness :
    tasksStartedOf (newClient .periodic (-1) 1) = 0
    ∧ newClient .never (-5) 2
      = .ok { timeTrigger := .never, ticker := none, tasksStarted := 1, concurrencyCfg := 2 } := by
  have h1 := periodValidationUnderPeriodic (-1) 1 (by decide)
  have h2 := periodValidationUnderPeriodic (-5) 2 (by decide)
  exact ⟨h1.2.1, h2.2.2.2 .never (by decide)⟩

/-- C9: a flush attempt whose swapped-out batch frames zero records
changes no statistics counter, spawns no worker, and neither takes a
token from nor returns one to the admission pool (the transient gauge
increment and decrement around the attempt are the `Step.enterAttempt` /
`Step.exitAttempt` pair, which cancel). -/
theorem emptyBatchNoEffect (st : Stats) (b : Bundle) (tokenReady : Bool)
    (h : b.miniStats.numberFramed = 0) :
    maybeWork st b tokenReady
      = { stats := st, workerSpawned := false, tokenTaken := false, gosched := false } := by
  simp [maybeWork, h]

/-- Witness for C9 at an empty bundle with a token available. -/
theorem emptyBatchNoEffect_witness :
    maybeWork { } ⟨⟨0⟩⟩ true
      = { stats := { }, workerSpawned := false, tokenTaken := false, gosched := false } := by
  exact emptyBatchNoEffect { } ⟨⟨0⟩⟩ true rfl

/-- C10: a concurrency capacity of zero is never rejected (construction
outcome is independent of the configured capacity, which `NewClient`
records unchecked), and thereafter no admission token ever exists — in
every reachable state nothing was supplied, nothing is held, and no
delivery worker was ever started — so every flush attempt on a non-empty
batch takes the drop path. -/
theorem zeroCapacityAlwaysDrops (s : SysState) (h : Reachable 0 s)
    (st : Stats) (b : Bundle) (hb : b.miniStats.numberFramed ≠ 0) :
    newClient .never 0 0
      = .ok { timeTrigger := .never, ticker := none, tasksStarted := 1, concurrencyCfg := 0 }
    ∧ (∀ (tt : TimeTriggerBehavior) (p : Int),
        (newClient tt p 0 = .error "logplexc.Client: negative target latency not allowed")
          ↔ (newClient tt p 1 = .error "logplexc.Client: negative target latency not allowed"))
    ∧ s.supplied = 0 ∧ s.holders = 0 ∧ s.spawnedWorkers = 0
    ∧ maybeWork st b false
      = { stats := statReqDrop st b.miniStats.numberFramed
          workerSpawned := false, tokenTaken := false, gosched := true } := by
  obtain ⟨h1, h2, h3⟩ := reachable_zero_cap h
  refine ⟨rfl, ?_, h1, h2, h3, ?_⟩
  · intro tt p
    cases tt with
    | periodic =>
        by_cases hp : p < 0
        · simp [newClient, determineTimeTrigger, hp]
        · by_cases hp0 : p = 0 <;> simp [newClient, determineTimeTrigger, hp, hp0]
    | immediate => simp [newClient, determineTimeTrigger]
    | never => simp [newClient, determineTimeTrigger]
  · simp [maybeWork, Nat.le_zero, hb]

/-- Witness for C10 at the initial state and a one-record batch. -/
theorem zeroCapacityAlwaysDrops_witness :
    initState.spawnedWorkers = 0
    ∧ (maybeWork { } ⟨⟨1⟩⟩ false).stats.dropped = 1 := by
  have h := zeroCapacityAlwaysDrops initState Relation.ReflTransGen.refl { } ⟨⟨1⟩⟩ (by decide)
  refine ⟨h.2.2.2.2.1, ?_⟩
  rw [h.2.2.2.2.2]
  decide

end Logplexc
